import Mathlib

/-!
Verification of `.github/shared.py` (module `shared`): a helper that resolves
a project root, reads a CI workflow YAML file, navigates to the key path
`jobs.scala_unit_tests.strategy.matrix.tests`, and lazily yields the test
selections while enforcing that the sentinel string `REMAINDER` occurs at
most once.

The embedding follows the Python source line by line:
  * YAML values are modelled by the inductive `Yaml` (the shapes
    `yaml.safe_load` can produce: null, bool, int, str, seq, map);
  * Python exceptions are modelled by `PyErr`;
  * the generator `get_test_selections` is modelled by `runFrom`, returning
    the final seen-flag, the list of values yielded before termination or
    failure, and the error raised (if any);
  * the filesystem and the third-party YAML parser are parameters
    (`fs : String → Option String`, `parse : String → Option Yaml`): the
    parser is external library code, so only its success/failure interface
    is modelled.
-/

namespace Shared

/-- YAML values as produced by `yaml.safe_load`: Python `None`, `bool`,
`int`, `str`, `list`, `dict` (string keys, as in workflow files). -/
inductive Yaml where
  | null : Yaml
  | bool (b : Bool) : Yaml
  | int (n : Int) : Yaml
  | str (s : String) : Yaml
  | seq (xs : List Yaml) : Yaml
  | map (kvs : List (String × Yaml)) : Yaml

/-- Python exceptions raised along the code paths of the module:
`KeyError(k)` from dict subscripting, `TypeError` from subscripting or
iterating a value of the wrong type, the generic `Exception(msg)` raised on
a duplicate sentinel, `FileNotFoundError` from `open`, and the parse error
of the YAML library. -/
inductive PyErr where
  | keyError (k : String) : PyErr
  | typeError : PyErr
  | exception (msg : String) : PyErr
  | fileNotFoundError : PyErr
  | yamlParseError : PyErr
deriving Repr, BEq, DecidableEq

/-- Source line 9: the sentinel string constant `REMAINDER`. -/
def REMAINDER : String := "REMAINDER"

/-- Line 34: `test_sel == REMAINDER`. Python `==` between a value and a
`str` is `True` only when the value is a string with equal contents. -/
def isRemainder : Yaml → Bool
  | .str s => s == REMAINDER
  | _ => false

/-- Models `pathlib.Path` applied to a string: the empty string becomes the
relative path dot. Other `pathlib` normalisations (duplicate or trailing
slashes) do not arise for the inputs considered here and are left as-is. -/
def pathOfString (s : String) : String :=
  if s = "" then "." else s

/-- A POSIX path is absolute when its first character is the slash, which is
the test `pathlib` uses when parsing a path string. -/
def isAbs (s : String) : Bool :=
  match s.data with
  | c :: _ => c == '/'
  | [] => false

/-- Models the `/` operator of `pathlib` on POSIX path strings: when the
right-hand operand is absolute the left-hand operand is discarded, otherwise
the two are joined with a separator. -/
def pyPathJoin (a b : String) : String :=
  if isAbs b then b else a ++ "/" ++ b

/-- Line 8: `WORKFLOW_PATH` is `GITHUB_DIR` with the fixed suffix
`/workflows/continuous-integration.yml` appended, where `GITHUB_DIR`
(line 7) is the absolute directory of the module itself, obtained from
`os.path.abspath` of the module file and taken here as a parameter. -/
def WORKFLOW_PATH (github_dir : String) : String :=
  github_dir ++ "/workflows/continuous-integration.yml"

/-- Lines 12-15: `Path` applied to `os.getenv` of `PROJECT_ROOT` with
default `os.getcwd()`. `env` is the value of the `PROJECT_ROOT` environment
variable (`none` when unset; `os.getenv` returns the value even when it is
the empty string), and `cwd` is the current working directory. -/
def get_project_root (env : Option String) (cwd : String) : String :=
  pathOfString (env.getD cwd)

/-- Lines 18-21: `open(workflow_path)` then `yaml.safe_load(f)`.
`fs` maps a path to the contents of the file at it (`none` when the file
does not exist, so `open` raises `FileNotFoundError`); `parse` is the
external YAML parser (`none` when the contents are not valid YAML, so the
library raises its parse error). -/
def read_workflow (fs : String → Option String) (parse : String → Option Yaml)
    (workflow_path : String) : Except PyErr Yaml :=
  match fs workflow_path with
  | none => .error .fileNotFoundError
  | some contents =>
    match parse contents with
    | none => .error .yamlParseError
    | some y => .ok y

/-- Python subscripting `v[k]` with a string key: a dict yields the value
when the key is present and raises `KeyError(k)` when absent; every other
value raises `TypeError`. -/
def Yaml.sub : Yaml → String → Except PyErr Yaml
  | .map kvs, k =>
    match kvs.lookup k with
    | some v => .ok v
    | none => .error (.keyError k)
  | _, _ => .error .typeError

/-- Lines 28-29: subscript the workflow by the keys `jobs`,
`scala_unit_tests`, `strategy`, `matrix`, `tests` in turn. -/
def extractTests (workflow : Yaml) : Except PyErr Yaml := do
  let a ← workflow.sub "jobs"
  let b ← a.sub "scala_unit_tests"
  let c ← b.sub "strategy"
  let d ← c.sub "matrix"
  d.sub "tests"

/-- Python iteration `for x in v`: a list yields its elements, a string
yields its characters as one-character strings, a dict yields its keys, and
every other value raises `TypeError`. -/
def pyIter : Yaml → Except PyErr (List Yaml)
  | .seq xs => .ok xs
  | .str s => .ok (s.data.map (fun c => .str (String.singleton c)))
  | .map kvs => .ok (kvs.map (fun kv => .str kv.1))
  | _ => .error .typeError

/-- The message of the exception raised at line 38, the f-string
interpolating `REMAINDER` between the words Two and test. -/
def dupMsg : String := "Two " ++ REMAINDER ++ " test selections found"

/-- Lines 31-39: the generator loop, starting from seen-flag `seen`
(`remainder_found` in the source). Returns the final seen-flag, the values
yielded before the loop terminated or raised, and the raised error if any.
A first sentinel sets the flag and is skipped (`continue`); a second raises
`Exception(dupMsg)`; every other element is yielded. -/
def runFrom : Bool → List Yaml → Bool × List Yaml × Option PyErr
  | seen, [] => (seen, [], none)
  | seen, v :: rest =>
    if isRemainder v then
      if seen then (seen, [], some (.exception dupMsg))
      else runFrom true rest
    else
      match runFrom seen rest with
      | (s, out, err) => (s, v :: out, err)

/-- Lines 25-26 of `get_test_selections`: resolve the project root and join
it with `WORKFLOW_PATH`; this is the path actually passed to `open`. -/
def openedWorkflowPath (env : Option String) (cwd github_dir : String) :
    String :=
  pyPathJoin (get_project_root env cwd) (WORKFLOW_PATH github_dir)

/-- Discriminator for YAML sequences (Python lists). -/
def Yaml.isSeq : Yaml → Bool
  | .seq _ => true
  | _ => false

/-- Lines 24-39: `get_test_selections`, fully driven (as a caller consuming
the whole generator would). Resolves the project root, joins the workflow
path, reads and parses the file, extracts the `tests` value, iterates it,
and runs the sentinel loop. A failure before the first yield produces no
values and that error. -/
def get_test_selections (env : Option String) (cwd : String)
    (github_dir : String) (fs : String → Option String)
    (parse : String → Option Yaml) : List Yaml × Option PyErr :=
  match read_workflow fs parse (openedWorkflowPath env cwd github_dir) with
  | .error e => ([], some e)
  | .ok workflow =>
    match extractTests workflow with
    | .error e => ([], some e)
    | .ok selections =>
      match pyIter selections with
      | .error e => ([], some e)
      | .ok items =>
        match runFrom false items with
        | (_, out, err) => (out, err)

/-- Modelled from the spec: the hypothetical re-serialization of the
round-trip property, "re-inserts one `REMAINDER` at the original position".
`insertAt i v l` inserts `v` before position `i` of `l`. -/
def insertAt : Nat → Yaml → List Yaml → List Yaml
  | 0, v, l => v :: l
  | _ + 1, _, [] => []
  | n + 1, v, x :: l => x :: insertAt n v l

/-! ## Helper lemmas about the generator loop -/

/-- The sentinel literal tests positive. -/
theorem isRemainder_sentinel : isRemainder (Yaml.str REMAINDER) = true := by
  decide

/-- A sentinel met while the flag is still unset sets the flag and is
skipped. -/
theorem runFrom_first_sentinel (t : List Yaml) :
    runFrom false (Yaml.str REMAINDER :: t) = runFrom true t := by
  simp [runFrom, isRemainder_sentinel]

/-- A sentinel met while the flag is set raises at once. -/
theorem runFrom_second_sentinel (t : List Yaml) :
    runFrom true (Yaml.str REMAINDER :: t) =
      (true, [], some (.exception dupMsg)) := by
  simp [runFrom, isRemainder_sentinel]

/-- A non-sentinel element is yielded in front of whatever the rest of the
loop produces, leaving flag and error unchanged. -/
theorem runFrom_cons_not (v : Yaml) (hv : isRemainder v = false)
    (rest : List Yaml) (seen : Bool) :
    runFrom seen (v :: rest) =
      ((runFrom seen rest).1, v :: (runFrom seen rest).2.1,
        (runFrom seen rest).2.2) := by
  rcases hr : runFrom seen rest with ⟨s, out, err⟩
  simp [runFrom, hv, hr]

/-- On a sentinel-free list the loop yields every element and keeps the
flag. -/
theorem runFrom_clean (l : List Yaml)
    (h : ∀ v ∈ l, isRemainder v = false) (seen : Bool) :
    runFrom seen l = (seen, l, none) := by
  induction l with
  | nil => rfl
  | cons v rest ih =>
    have hv : isRemainder v = false := h v (List.mem_cons_self v rest)
    have hr := ih (fun w hw => h w (List.mem_cons_of_mem v hw))
    simp [runFrom, hv, hr]

/-- A sentinel-free block at the front of the list is yielded element for
element in front of whatever the loop produces on the rest. -/
theorem runFrom_clean_front (l1 rest : List Yaml)
    (h : ∀ v ∈ l1, isRemainder v = false) (seen : Bool) :
    runFrom seen (l1 ++ rest) =
      ((runFrom seen rest).1, l1 ++ (runFrom seen rest).2.1,
        (runFrom seen rest).2.2) := by
  induction l1 with
  | nil =>
    rcases hr : runFrom seen rest with ⟨s, out, err⟩
    simp [hr]
  | cons v t ih =>
    have hv : isRemainder v = false := h v (List.mem_cons_self v t)
    have ht := ih (fun w hw => h w (List.mem_cons_of_mem v hw))
    rw [List.cons_append, runFrom_cons_not v hv, ht]
    simp

/-- A list with exactly one sentinel occurrence: the loop yields everything
else in order, sets the flag, and raises nothing. -/
theorem runFrom_one_sentinel (l1 l2 : List Yaml)
    (h1 : ∀ v ∈ l1, isRemainder v = false)
    (h2 : ∀ v ∈ l2, isRemainder v = false) :
    runFrom false (l1 ++ Yaml.str REMAINDER :: l2) = (true, l1 ++ l2, none) := by
  rw [runFrom_clean_front l1 _ h1, runFrom_first_sentinel,
    runFrom_clean l2 h2 true]

/-- A list with a second sentinel occurrence: the loop yields the
non-sentinel elements before it, then raises the duplicate-sentinel
exception; the tail after the second occurrence plays no part. -/
theorem runFrom_dup (l1 l2 l3 : List Yaml)
    (h1 : ∀ v ∈ l1, isRemainder v = false)
    (h2 : ∀ v ∈ l2, isRemainder v = false) :
    runFrom false
        (l1 ++ Yaml.str REMAINDER :: (l2 ++ Yaml.str REMAINDER :: l3)) =
      (true, l1 ++ l2, some (.exception dupMsg)) := by
  rw [runFrom_clean_front l1 _ h1, runFrom_first_sentinel,
    runFrom_clean_front l2 _ h2, runFrom_second_sentinel]
  simp

/-- State-space characterisation of an error-free run of the loop from an
arbitrary starting flag: the output is the sentinel-free sublist, the final
flag records whether a sentinel occurred, and the number of sentinels is
bounded by what the flag still allows. -/
theorem runFrom_inv (p : List Yaml) : ∀ seen : Bool,
    (runFrom seen p).2.2 = none →
      (runFrom seen p).2.1 = p.filter (fun v => !isRemainder v) ∧
      (runFrom seen p).1 = (seen || p.any (fun v => isRemainder v)) ∧
      p.countP (fun v => isRemainder v) ≤ (if seen then 0 else 1) := by
  induction p with
  | nil => intro seen h; simp [runFrom]
  | cons v rest ih =>
    intro seen h
    by_cases hv : isRemainder v = true
    · cases seen with
      | true => simp [runFrom, hv] at h
      | false =>
        have hstep : runFrom false (v :: rest) = runFrom true rest := by
          simp [runFrom, hv]
        rw [hstep] at h ⊢
        obtain ⟨ho, hs, hc⟩ := ih true h
        have hc0 : rest.countP (fun v => isRemainder v) = 0 := by
          simpa using hc
        refine ⟨?_, ?_, ?_⟩
        · rw [ho, List.filter_cons]; simp [hv]
        · rw [hs]; simp [List.any_cons, hv]
        · simp [List.countP_cons, hv, hc0]
    · rw [Bool.not_eq_true] at hv
      rw [runFrom_cons_not v hv] at h ⊢
      obtain ⟨ho, hs, hc⟩ := ih seen h
      refine ⟨?_, ?_, ?_⟩
      · simp [List.filter_cons, hv, ho]
      · simp [List.any_cons, hv, hs]
      · simpa [List.countP_cons, hv] using hc

/-- Inserting at the length of the left block lands exactly between the two
blocks. -/
theorem insertAt_len (l1 l2 : List Yaml) (v : Yaml) :
    insertAt l1.length v (l1 ++ l2) = l1 ++ v :: l2 := by
  induction l1 with
  | nil => rfl
  | cons x t ih => simp [insertAt, ih]

/-- Appending to an absolute path string leaves it absolute. -/
theorem isAbs_append (a b : String) (h : isAbs a = true) :
    isAbs (a ++ b) = true := by
  unfold isAbs at h ⊢
  rw [String.data_append]
  cases hd : a.data with
  | nil => rw [hd] at h; simp at h
  | cons c t => rw [hd] at h; simpa using h

/-! ## Claim theorems -/

/-- C1: for every tests list containing no REMAINDER element, the loop of
`get_test_selections` (lines 31-39, embedded as `runFrom` started with the
flag unset) yields exactly the input list, element for element, in the same
order, and raises nothing. -/
theorem no_sentinel_yields_input (tests : List Yaml)
    (h : ∀ v ∈ tests, isRemainder v = false) :
    runFrom false tests = (false, tests, none) :=
  runFrom_clean tests h false

/-- C1 witness: the spec Example 1, input a b. -/
theorem no_sentinel_yields_input_witness :
    runFrom false [Yaml.str "a", Yaml.str "b"] =
      (false, [Yaml.str "a", Yaml.str "b"], none) :=
  no_sentinel_yields_input [Yaml.str "a", Yaml.str "b"] (by decide)

/-- C2: for every tests list containing exactly one REMAINDER element
(written as a sentinel-free block, the sentinel, and a second sentinel-free
block), the loop yields the input list with that single element removed, the
order of all other elements preserved, and raises nothing. -/
theorem one_sentinel_removed (l1 l2 : List Yaml)
    (h1 : ∀ v ∈ l1, isRemainder v = false)
    (h2 : ∀ v ∈ l2, isRemainder v = false) :
    runFrom false (l1 ++ Yaml.str REMAINDER :: l2) = (true, l1 ++ l2, none) :=
  runFrom_one_sentinel l1 l2 h1 h2

/-- C2 witness: the spec Example 2, input a REMAINDER b. -/
theorem one_sentinel_removed_witness :
    runFrom false ([Yaml.str "a"] ++ Yaml.str REMAINDER :: [Yaml.str "b"]) =
      (true, [Yaml.str "a"] ++ [Yaml.str "b"], none) :=
  one_sentinel_removed [Yaml.str "a"] [Yaml.str "b"] (by decide) (by decide)

/-- C3: for every tests list containing two or more REMAINDER elements, the
loop raises the duplicate-sentinel exception exactly when the second
occurrence is processed, the message names the sentinel REMAINDER, no
element after the second occurrence is processed (the result does not depend
on the tail `l3`), and every non-sentinel element before the second
occurrence has already been yielded in order. -/
theorem dup_sentinel_raises (l1 l2 l3 : List Yaml)
    (h1 : ∀ v ∈ l1, isRemainder v = false)
    (h2 : ∀ v ∈ l2, isRemainder v = false) :
    runFrom false
        (l1 ++ Yaml.str REMAINDER :: (l2 ++ Yaml.str REMAINDER :: l3)) =
      (true, l1 ++ l2, some (.exception dupMsg)) ∧
    dupMsg = "Two REMAINDER test selections found" :=
  ⟨runFrom_dup l1 l2 l3 h1 h2, rfl⟩

/-- C3 witness: the spec Example 3 extended with a tail element, input
a REMAINDER b REMAINDER c. -/
theorem dup_sentinel_raises_witness :
    runFrom false
        ([Yaml.str "a"] ++ Yaml.str REMAINDER ::
          ([Yaml.str "b"] ++ Yaml.str REMAINDER :: [Yaml.str "c"])) =
      (true, [Yaml.str "a"] ++ [Yaml.str "b"],
        some (.exception dupMsg)) ∧
    dupMsg = "Two REMAINDER test selections found" :=
  dup_sentinel_raises [Yaml.str "a"] [Yaml.str "b"] [Yaml.str "c"]
    (by decide) (by decide)

/-- C4: for a tests list with exactly one REMAINDER element at position
`l1.length`, re-inserting the sentinel at that position into what the loop
yielded reconstructs the original input list exactly. -/
theorem sentinel_removal_round_trip (l1 l2 : List Yaml)
    (h1 : ∀ v ∈ l1, isRemainder v = false)
    (h2 : ∀ v ∈ l2, isRemainder v = false) :
    insertAt l1.length (Yaml.str REMAINDER)
        (runFrom false (l1 ++ Yaml.str REMAINDER :: l2)).2.1 =
      l1 ++ Yaml.str REMAINDER :: l2 := by
  rw [runFrom_one_sentinel l1 l2 h1 h2]
  exact insertAt_len l1 l2 (Yaml.str REMAINDER)

/-- C4 witness: round trip on input a REMAINDER b. -/
theorem sentinel_removal_round_trip_witness :
    insertAt (List.length [Yaml.str "a"]) (Yaml.str REMAINDER)
        (runFrom false
          ([Yaml.str "a"] ++ Yaml.str REMAINDER :: [Yaml.str "b"])).2.1 =
      [Yaml.str "a"] ++ Yaml.str REMAINDER :: [Yaml.str "b"] :=
  sentinel_removal_round_trip [Yaml.str "a"] [Yaml.str "b"]
    (by decide) (by decide)

/-- C5 counterexample: with `PROJECT_ROOT` set to the empty string (set but
not non-empty, so the claim demands the current working directory), the code
returns the relative path dot, because `os.getenv` falls back to its default
only when the variable is unset. -/
theorem project_root_empty_env_cex :
    get_project_root (some "") "/home/user" = "." ∧
    get_project_root (some "") "/home/user" ≠ "/home/user" :=
  ⟨rfl, by decide⟩

/-- C5 amended: `get_project_root` returns the value of `PROJECT_ROOT`
whenever the variable is set and non-empty, returns the current working
directory only when the variable is unset, and when the variable is set to
the empty string returns the relative path dot (not the working
directory). -/
theorem project_root_getenv_cases (cwd v : String) (hc : cwd ≠ "") :
    get_project_root none cwd = cwd ∧
    (v ≠ "" → get_project_root (some v) cwd = v) ∧
    get_project_root (some "") cwd = "." := by
  refine ⟨?_, fun hv => ?_, rfl⟩
  · simp [get_project_root, pathOfString, hc]
  · simp [get_project_root, pathOfString, hv]

/-- C5 witness: the three cases at concrete values. -/
theorem project_root_getenv_cases_witness :
    get_project_root none "/home/user" = "/home/user" ∧
    get_project_root (some "/proj") "/home/user" = "/proj" ∧
    get_project_root (some "") "/home/user" = "." :=
  ⟨(project_root_getenv_cases "/home/user" "/proj" (by decide)).1,
   (project_root_getenv_cases "/home/user" "/proj" (by decide)).2.1
     (by decide),
   (project_root_getenv_cases "/home/user" "/proj" (by decide)).2.2⟩

/-- C6 counterexample: with the module directory at `/repo/.github` and the
project root resolved to `/other`, the path passed to `open` is the one
fixed by the module location, not the claimed path under the project root:
`WORKFLOW_PATH` is absolute, so the `pathlib` join discards the root. -/
theorem workflow_path_root_ignored_cex :
    openedWorkflowPath (some "/other") "/x" "/repo/.github" =
      "/repo/.github/workflows/continuous-integration.yml" ∧
    openedWorkflowPath (some "/other") "/x" "/repo/.github" ≠
      "/other/.github/workflows/continuous-integration.yml" :=
  ⟨rfl, by decide⟩

/-- C6 amended: the file opened by `get_test_selections` is always
`WORKFLOW_PATH`, the fixed absolute path under the directory of the module
itself, for every resolved project root: the resolved root is discarded by
the join because `WORKFLOW_PATH` is absolute. -/
theorem workflow_path_module_fixed (env : Option String)
    (cwd github_dir : String) (h : isAbs github_dir = true) :
    openedWorkflowPath env cwd github_dir = WORKFLOW_PATH github_dir := by
  have habs : isAbs (WORKFLOW_PATH github_dir) = true :=
    isAbs_append github_dir "/workflows/continuous-integration.yml" h
  simp [openedWorkflowPath, pyPathJoin, habs]

/-- C6 witness: a concrete environment, working directory and module
directory. -/
theorem workflow_path_module_fixed_witness :
    openedWorkflowPath (some "/other") "/cwd" "/repo/.github" =
      WORKFLOW_PATH "/repo/.github" :=
  workflow_path_module_fixed (some "/other") "/cwd" "/repo/.github"
    (by decide)

/-- A workflow document whose `tests` value is the YAML string ab, not a
sequence. -/
def docStrTests : Yaml :=
  .map [("jobs", .map [("scala_unit_tests", .map [("strategy",
    .map [("matrix", .map [("tests", .str "ab")])])])])]

/-- C7 counterexample: a document whose `tests` value is a string, hence not
a sequence. The claim demands a KeyError-kind failure, but the code raises
nothing: Python iterates the string character by character, and
`get_test_selections` yields the two one-character strings. -/
theorem tests_string_iterates_cex :
    extractTests docStrTests = .ok (.str "ab") ∧
    Yaml.isSeq (.str "ab") = false ∧
    get_test_selections none "/x" "/repo/.github" (fun _ => some "c")
        (fun _ => some docStrTests) = ([Yaml.str "a", Yaml.str "b"], none) :=
  ⟨rfl, rfl, rfl⟩

/-- C7 amended: a key segment absent from the mapping reached at that point
raises a KeyError naming the segment, and any error raised while navigating
the key path (KeyError for a missing key, TypeError for subscripting a
non-mapping) propagates out of `get_test_selections` with no element
produced; but a final value that is not a sequence does not in general raise
a KeyError-kind error (a string final value is iterated character-wise
without error). -/
theorem missing_key_raises_keyError (kvs : List (String × Yaml)) (k : String)
    (env : Option String) (cwd github_dir contents : String)
    (fs : String → Option String) (parse : String → Option Yaml)
    (doc : Yaml) (e : PyErr)
    (hk : kvs.lookup k = none)
    (hfs : fs (openedWorkflowPath env cwd github_dir) = some contents)
    (hp : parse contents = some doc)
    (he : extractTests doc = .error e) :
    Yaml.sub (.map kvs) k = .error (.keyError k) ∧
    get_test_selections env cwd github_dir fs parse = ([], some e) := by
  constructor
  · simp [Yaml.sub, hk]
  · simp [get_test_selections, read_workflow, hfs, hp, he]

/-- C7 witness: a document that is an empty mapping, so the first segment
`jobs` is missing and `get_test_selections` fails with that KeyError. -/
theorem missing_key_raises_keyError_witness :
    Yaml.sub (.map [("x", Yaml.null)]) "jobs" = .error (.keyError "jobs") ∧
    get_test_selections none "/x" "/g" (fun _ => some "c")
        (fun _ => some (.map [])) = ([], some (.keyError "jobs")) :=
  missing_key_raises_keyError [("x", Yaml.null)] "jobs" none "/x" "/g" "c"
    (fun _ => some "c") (fun _ => some (.map [])) (.map [])
    (.keyError "jobs") rfl rfl rfl rfl

/-- C8: `read_workflow` fails with FileNotFoundError whenever the path does
not exist, fails with the YAML parse error whenever the contents are not
valid YAML, and in both cases a `read_workflow` failure propagates
unrecovered to the caller of `get_test_selections`, which produces no
element and that very error. -/
theorem read_failures_propagate (env : Option String)
    (cwd github_dir contents path : String)
    (fs : String → Option String) (parse : String → Option Yaml) :
    (fs path = none → read_workflow fs parse path = .error .fileNotFoundError) ∧
    (fs path = some contents → parse contents = none →
      read_workflow fs parse path = .error .yamlParseError) ∧
    (∀ e, read_workflow fs parse (openedWorkflowPath env cwd github_dir) =
        .error e →
      get_test_selections env cwd github_dir fs parse = ([], some e)) := by
  refine ⟨fun h => ?_, fun h1 h2 => ?_, fun e he => ?_⟩
  · simp [read_workflow, h]
  · simp [read_workflow, h1, h2]
  · simp [get_test_selections, he]

/-- C8 witness: a missing file, an unparsable file, and the propagation of
the missing-file error out of `get_test_selections`. -/
theorem read_failures_propagate_witness :
    read_workflow (fun _ => none) (fun _ => some Yaml.null) "/p" =
      .error .fileNotFoundError ∧
    read_workflow (fun _ => some "c") (fun _ => none) "/p" =
      .error .yamlParseError ∧
    get_test_selections none "/x" "/g" (fun _ => none)
        (fun _ => some Yaml.null) = ([], some .fileNotFoundError) :=
  ⟨(read_failures_propagate none "/x" "/g" "c" "/p" (fun _ => none)
      (fun _ => some Yaml.null)).1 rfl,
   (read_failures_propagate none "/x" "/g" "c" "/p" (fun _ => some "c")
      (fun _ => none)).2.1 rfl rfl,
   (read_failures_propagate none "/x" "/g" "c" "/p" (fun _ => none)
      (fun _ => some Yaml.null)).2.2 .fileNotFoundError rfl⟩

/-- C9: sentinel detection is exact equality against the literal REMAINDER
string value: every element that is not exactly that value, including other
strings and non-string values, tests negative and is yielded unchanged in
front of whatever the rest of the loop produces. -/
theorem non_sentinel_passthrough (v : Yaml) (hv : v ≠ Yaml.str REMAINDER)
    (rest : List Yaml) (seen : Bool) :
    isRemainder v = false ∧
    runFrom seen (v :: rest) =
      ((runFrom seen rest).1, v :: (runFrom seen rest).2.1,
        (runFrom seen rest).2.2) := by
  have hb : isRemainder v = false := by
    cases v with
    | str s =>
      have hs : s ≠ REMAINDER := fun h => hv (by rw [h])
      have hbeq : (s == REMAINDER) = false := beq_eq_false_iff_ne.mpr hs
      simp [isRemainder, hbeq]
    | null => rfl
    | bool b => rfl
    | int n => rfl
    | seq xs => rfl
    | map kvs => rfl
  exact ⟨hb, runFrom_cons_not v hb rest seen⟩

/-- C9 witness: the lower-case string remainder is not the sentinel and
passes through. -/
theorem non_sentinel_passthrough_witness :
    isRemainder (Yaml.str "remainder") = false ∧
    runFrom false [Yaml.str "remainder"] =
      ((runFrom false []).1, Yaml.str "remainder" :: (runFrom false []).2.1,
        (runFrom false []).2.2) :=
  non_sentinel_passthrough (Yaml.str "remainder")
    (by intro h; injection h with h; exact absurd h (by decide)) [] false

/-- C10: loop invariant. After processing any prefix of the tests list on
which no error has been raised, the values yielded so far are exactly the
non-sentinel elements of that prefix in their original order, the seen-flag
is true exactly when the prefix contains at least one REMAINDER, and at most
one sentinel occurrence has been consumed. -/
theorem loop_state_invariant (tests : List Yaml) (n : Nat)
    (h : (runFrom false (tests.take n)).2.2 = none) :
    (runFrom false (tests.take n)).2.1 =
      (tests.take n).filter (fun v => !isRemainder v) ∧
    (runFrom false (tests.take n)).1 =
      (tests.take n).any (fun v => isRemainder v) ∧
    (tests.take n).countP (fun v => isRemainder v) ≤ 1 := by
  obtain ⟨ho, hs, hc⟩ := runFrom_inv (tests.take n) false h
  refine ⟨ho, ?_, ?_⟩
  · simpa using hs
  · simpa using hc

/-- C10 witness: the length-two prefix of a REMAINDER b. -/
theorem loop_state_invariant_witness :
    (runFrom false
        ([Yaml.str "a", Yaml.str REMAINDER, Yaml.str "b"].take 2)).2.1 =
      ([Yaml.str "a", Yaml.str REMAINDER, Yaml.str "b"].take 2).filter
        (fun v => !isRemainder v) ∧
    (runFrom false
        ([Yaml.str "a", Yaml.str REMAINDER, Yaml.str "b"].take 2)).1 =
      ([Yaml.str "a", Yaml.str REMAINDER, Yaml.str "b"].take 2).any
        (fun v => isRemainder v) ∧
    ([Yaml.str "a", Yaml.str REMAINDER, Yaml.str "b"].take 2).countP
        (fun v => isRemainder v) ≤ 1 :=
  loop_state_invariant [Yaml.str "a", Yaml.str REMAINDER, Yaml.str "b"] 2
    (by decide)

end Shared
